import Mathlib

/-!
Verification of the halomod `HaloModel` core (halo_model.py) against its
natural-language specification.

The embedding is shallow: floating-point arrays become `List ℚ`, scalar
floats become `ℚ`, Python `None` becomes `Option`, and raised exceptions
become `Except`.  External collaborators (the `hmf` mass-function provider,
the `hod`/`profiles`/`bias` strategy registries, the scipy/numpy numerical
kernels and the fortran 1-halo / 2-halo kernels) are abstracted as function
fields of an `Ext` structure, exactly at the interface the core calls them;
everything the core itself computes is translated concretely.
-/

namespace Halomod

/-- Result record of `scipy.optimize.minimize` as used by the core:
the minimizing argument `x` (the first component of `res.x`) and the
convergence flag `res.success`. -/
structure MinimizeResult where
  x : ℚ
  success : Bool

/-- An `InterpolatedUnivariateSpline` object as used by the core: point
evaluation (`fit(x)`) and first derivative (`fit.derivatives(x)[1]`). -/
structure SplineFn where
  eval : ℚ → ℚ
  deriv : ℚ → ℚ

/-- An HOD (halo occupation distribution) instance, as constructed by the
external `hod` module from the `hod_params` dictionary: minimum grid mass
exponent `mmin`, central / satellite / total occupancy functions, the
`sharp_cut` policy flag and the `_central` flag passed to the 1-halo kernel. -/
structure HOD where
  mmin : ℚ
  nc : ℚ → ℚ
  ns : ℚ → ℚ
  ntot : ℚ → ℚ
  sharpCut : Bool
  central : Bool

/-- Profile capability record: whether the profile collaborator exposes the
joint Lambda correction (`profile.has_lam`). -/
structure ProfileInfo where
  hasLam : Bool

/-- The user-settable configuration parameters of `HaloModel` (plus the
inherited `dlog10m` step of the mass grid, which the solver changes). -/
structure Params where
  rmin : ℚ
  rmax : ℚ
  rnum : ℕ
  hodParams : List (String × ℚ)
  ng : Option ℚ
  dlog10m : ℚ
  nonlinear : Bool
  scaleDependentBias : Bool
  haloExclusion : String
  cmRelation : String
  nthreads : ℕ
deriving DecidableEq

/-- External collaborators, abstracted at the exact call interface of the
core.  Transcendental functions (`np.log`, `np.exp`, `np.sqrt`, powers),
the scipy integrators and optimizer, the spline constructor, the external
hod/profile/bias registries and the fortran 1-halo / 2-halo kernels are all
opaque functions here; profile-derived kernel inputs (`u`, `rho`, `lam`)
are subsumed into the corresponding kernel field since both are external. -/
structure Ext where
  log : ℚ → ℚ
  exp : ℚ → ℚ
  sqrt : ℚ → ℚ
  pow10 : ℚ → ℚ
  log10 : ℚ → ℚ
  pow2 : ℚ → ℚ
  rpow : ℚ → ℚ → ℚ
  dndm : ℚ → ℚ
  hodModel : List (String × ℚ) → HOD
  simps : List ℚ → ℚ → ℚ
  simpsFirst : List ℚ → ℚ → ℚ
  simpsXY : List ℚ → List ℚ → ℚ
  minimize : (ℚ → ℚ) → ℚ → ℚ → ℕ → MinimizeResult
  splineFit : List ℚ → List ℚ → SplineFn
  powerToCorrOgata : List ℚ → List ℚ → List ℚ → List ℚ
  profileOf : Params → ProfileInfo
  biasArr : Params → List ℚ
  fortPowerGal1hSs : List ℚ → List ℚ → List ℚ → List ℚ → Bool → List ℚ
  fortCorrGal1hCs : List ℚ → List ℚ → List ℚ → List ℚ → List ℚ → ℚ → ℚ → List ℚ
  fortCorrGal1h : List ℚ → List ℚ → List ℚ → List ℚ → List ℚ → Bool → ℚ → ℚ → List ℚ
  thalo : String → Bool → List ℚ → List ℚ → List ℚ → List ℚ → List ℚ → List ℚ →
    List ℚ → List ℚ → ℚ → ℚ → ℚ → ℕ → List ℚ
  power : List ℚ
  nonlinearPower : List ℚ
  lnk : List ℚ
  meanDens : ℚ
  deltaHalo : ℚ

/-!  Concrete numpy/scipy helpers the core relies on, translated from their
documented semantics: `np.linspace`, `np.arange`, `np.logspace` (powers of
ten of a linspace), and `scipy.integrate.cumtrapz` (cumulative trapezoid,
no initial zero entry). -/

/-- Translation of `np.linspace(a, b, n)`: `n` evenly spaced points from
`a` to `b` inclusive (`[a]` for `n = 1`, empty for `n = 0`). -/
def linspace (a b : ℚ) (n : ℕ) : List ℚ :=
  if n ≤ 1 then (List.range n).map (fun _ => a)
  else (List.range n).map (fun i => a + i * (b - a) / ((n : ℚ) - 1))

/-- Translation of `np.arange(a, b, step)` for positive `step`: the values
`a + k * step` lying in `[a, b)`. -/
def arange (a b step : ℚ) : List ℚ :=
  (List.range (⌈(b - a) / step⌉).toNat).map (fun k => a + k * step)

/-- Translation of `np.logspace(a, b, n)`: ten raised to each linspace point. -/
def logspace (E : Ext) (a b : ℚ) (n : ℕ) : List ℚ :=
  (linspace a b n).map E.pow10

/-- Successive trapezoid areas `dx * (y_i + y_{i+1}) / 2` of a sample list. -/
def trapzSteps : List ℚ → ℚ → List ℚ
  | x :: y :: rest, dx => dx * (x + y) / 2 :: trapzSteps (y :: rest) dx
  | _, _ => []

/-- Cumulative sums of a list (without a leading zero). -/
def cumsum (xs : List ℚ) : List ℚ :=
  (xs.scanl (· + ·) 0).drop 1

/-- Translation of `scipy.integrate.cumtrapz(y, dx=dx)`: cumulative
trapezoid integral, one entry per consecutive pair of samples. -/
def cumtrapz (ys : List ℚ) (dx : ℚ) : List ℚ :=
  cumsum (trapzSteps ys dx)

/-- Elementwise product of two numpy arrays. -/
def mulArr (xs ys : List ℚ) : List ℚ :=
  List.zipWith (· * ·) xs ys

/-!  Derived quantities of `HaloModel`, translated property by property. -/

/-- Class attribute `rlog = True` of `HaloModel`. -/
def rlog : Bool := true

/-- Property `r`: the radius grid, log-spaced between `rmin` and `rmax`
with `rnum` points when `rlog` holds (it always does), linear otherwise. -/
def rGrid (E : Ext) (p : Params) : List ℚ :=
  if rlog then (linspace (E.log p.rmin) (E.log p.rmax) p.rnum).map E.exp
  else linspace p.rmin p.rmax p.rnum

/-- Property `hod`: the HOD instance built from `hod_model(**hod_params)`. -/
def hod (E : Ext) (p : Params) : HOD :=
  E.hodModel p.hodParams

/-- Property `M`: the mass grid `10 ** np.arange(hod.mmin, 18, dlog10m)`. -/
def Mgrid (E : Ext) (p : Params) : List ℚ :=
  (arange (hod E p).mmin 18 p.dlog10m).map E.pow10

/-- Property `n_sat`: satellite occupancy on the mass grid. -/
def nsatArr (E : Ext) (p : Params) : List ℚ :=
  (Mgrid E p).map (hod E p).ns

/-- Property `n_cen`: central occupancy on the mass grid. -/
def ncenArr (E : Ext) (p : Params) : List ℚ :=
  (Mgrid E p).map (hod E p).nc

/-- Property `n_tot`: total occupancy on the mass grid. -/
def ntotArr (E : Ext) (p : Params) : List ℚ :=
  (Mgrid E p).map (hod E p).ntot

/-- The abundance array `dndm` supplied by the mass-function collaborator,
evaluated on the mass grid. -/
def dndmArr (E : Ext) (p : Params) : List ℚ :=
  (Mgrid E p).map E.dndm

/-- The log step `np.log(M[1]) - np.log(M[0])` used as `dx` by every mass
integral of the core. -/
def dxM (E : Ext) (p : Params) : ℚ :=
  E.log ((Mgrid E p).getD 1 0) - E.log ((Mgrid E p).getD 0 0)

/-- The integrand `M * dndm * n_tot` of the galaxy-density integral. -/
def galIntegrand (E : Ext) (p : Params) : List ℚ :=
  mulArr (mulArr (Mgrid E p) (dndmArr E p)) (ntotArr E p)

/-- Property `mean_gal_den`: the target density `ng` when it is set,
otherwise the `even="first"` Simpson integral of `M * dndm * n_tot`. -/
def mean_gal_den (E : Ext) (p : Params) : ℚ :=
  match p.ng with
  | some v => v
  | none => E.simpsFirst (galIntegrand E p) (dxM E p)

/-- Property `satellite_fraction`: Simpson integral of `M * dndm * n_sat`
divided by the mean galaxy density. -/
def satellite_fraction (E : Ext) (p : Params) : ℚ :=
  E.simps (mulArr (mulArr (Mgrid E p) (dndmArr E p)) (nsatArr E p)) (dxM E p) /
    mean_gal_den E p

/-- Property `central_fraction`: one minus the satellite fraction. -/
def central_fraction (E : Ext) (p : Params) : ℚ :=
  1 - satellite_fraction E p

/-- Property `matter_power`: the nonlinear log-power when the `nonlinear`
flag is set, the linear log-power otherwise. -/
def matter_power (E : Ext) (p : Params) : List ℚ :=
  if p.nonlinear then E.nonlinearPower else E.power

/-- Property `dm_corr`: Ogata power-to-correlation transform of the matter
power on the radius grid. -/
def dm_corr (E : Ext) (p : Params) : List ℚ :=
  E.powerToCorrOgata ((matter_power E p).map E.exp) E.lnk (rGrid E p)

/-- Property `_power_gal_1h_ss`: the fortran sat-sat 1-halo power kernel
output, divided elementwise by the squared mean galaxy density. -/
def power_gal_1h_ss (E : Ext) (p : Params) : List ℚ :=
  (E.fortPowerGal1hSs (dndmArr E p) (nsatArr E p) (ncenArr E p) (Mgrid E p)
      (hod E p).central).map (fun x => x / mean_gal_den E p ^ 2)

/-- Property `_corr_gal_1h_ss`: the sat-sat 1-halo power transformed to a
real-space correlation on the radius grid. -/
def corr_gal_1h_ss (E : Ext) (p : Params) : List ℚ :=
  E.powerToCorrOgata (power_gal_1h_ss E p) E.lnk (rGrid E p)

/-- Property `_corr_gal_1h_cs`: the fortran cen-sat 1-halo kernel output,
divided elementwise by the squared mean galaxy density. -/
def corr_gal_1h_cs (E : Ext) (p : Params) : List ℚ :=
  (E.fortCorrGal1hCs (rGrid E p) (Mgrid E p) (dndmArr E p) (ncenArr E p)
      (nsatArr E p) E.meanDens E.deltaHalo).map (fun x => x / mean_gal_den E p ^ 2)

/-- Property `corr_gal_1h`: the combined fortran kernel (normalized by the
squared mean density) when the profile exposes the Lambda correction,
otherwise the cen-sat plus sat-sat sub-terms. -/
def corr_gal_1h (E : Ext) (p : Params) : List ℚ :=
  if (E.profileOf p).hasLam then
    (E.fortCorrGal1h (rGrid E p) (Mgrid E p) (dndmArr E p) (ncenArr E p)
        (nsatArr E p) (hod E p).central E.meanDens E.deltaHalo).map
      (fun x => x / mean_gal_den E p ^ 2)
  else
    List.zipWith (· + ·) (corr_gal_1h_cs E p) (corr_gal_1h_ss E p)

/-- Property `corr_gal_2h`: the two-halo wrapper kernel applied to the
exclusion mode, bias flag, mass grid, bias, occupations, abundance, power,
radius grid, matter correlation, mean density and thread hint. -/
def corr_gal_2h (E : Ext) (p : Params) : List ℚ :=
  E.thalo p.haloExclusion p.scaleDependentBias (Mgrid E p) (E.biasArr p)
    (ntotArr E p) (dndmArr E p) E.lnk ((matter_power E p).map E.exp)
    (rGrid E p) (dm_corr E p) (mean_gal_den E p) E.deltaHalo E.meanDens
    p.nthreads

/-- Property `corr_gal`: the elementwise sum of the one-halo and two-halo
terms. -/
def corr_gal (E : Ext) (p : Params) : List ℚ :=
  List.zipWith (· + ·) (corr_gal_1h E p) (corr_gal_2h E p)

/-!  The `update` method and the minimum-mass solver `_find_m_min`. -/

/-- Keyword arguments of a call to `update`: each field is `some` exactly
when the corresponding keyword was passed (`ngArg` carries the passed value
of `ng`, itself an `Option` since `ng=None` may be passed). -/
structure Kwargs where
  ngArg : Option (Option ℚ)
  hodParams : Option (List (String × ℚ))
  dlog10m : Option ℚ
deriving DecidableEq

/-- The exceptions the solver can raise: `NGException` (carrying the
achieved maximum density that appears in its message) and the `IndexError`
numpy raises on an out-of-range or empty selection. -/
inductive PyErr where
  | ngException (achieved : ℚ)
  | indexError
deriving DecidableEq

/-- Decidable equality of solver outcomes, used to evaluate the witnesses
and counterexamples on concrete inputs. -/
instance : DecidableEq (Except PyErr ℚ) := fun a b =>
  match a, b with
  | .ok x, .ok y => decidable_of_iff (x = y) (by simp)
  | .error x, .error y => decidable_of_iff (x = y) (by simp)
  | .ok _, .error _ => isFalse (by simp)
  | .error _, .ok _ => isFalse (by simp)

/-- The kwarg-application part of `update` (everything before the final
re-solve): if `ng` is passed it is stored (and popped); otherwise, if
`hod_params` containing `M_min` is passed, `ng` is set to `None`; then the
remaining kwargs are applied by the parent `update`. -/
def apply_kwargs (p : Params) (kw : Kwargs) : Params :=
  let p1 :=
    match kw.ngArg with
    | some v => { p with ng := v }
    | none =>
      match kw.hodParams with
      | some hp =>
        if (hp.lookup "M_min").isSome then { p with ng := none } else p
      | none => p
  let p2 :=
    match kw.hodParams with
    | some hp => { p1 with hodParams := hp }
    | none => p1
  match kw.dlog10m with
  | some d => { p2 with dlog10m := d }
  | none => p2

/-- Method `update`: apply the kwargs, then, if `ng` is now set, solve for
the minimum mass and replace `hod_params` by the freshly solved value.  The
solver is passed as a function argument (`solve`) standing for
`_find_m_min` on the post-update state. -/
def update (solve : Params → ℚ → ℚ) (p : Params) (kw : Kwargs) : Params :=
  let p3 := apply_kwargs p kw
  match p3.ng with
  | some ngv => { p3 with hodParams := [("M_min", solve p3 ngv)] }
  | none => p3

/-- The isolated working copy built at the top of `_find_m_min`:
`c = deepcopy(self)` followed by
`c.update(hod_params={"M_min": 8}, dlog10m=0.01)`.  In the pure embedding
the deep copy is the value snapshot itself; the internal `update` call
passes `M_min` without `ng`, so its re-solve branch is unreachable and the
solver argument is irrelevant (a constant is passed). -/
def copyForSolve (p : Params) : Params :=
  update (fun _ _ => 0) p
    { ngArg := none, hodParams := some [("M_min", 8)], dlog10m := some (1 / 100) }

/-- The objective `model(mmin)` minimized by the smooth policy of
`_find_m_min`: update the working copy with `hod_params={"M_min": mmin}`,
recompute the density integral and return its absolute distance to `ng`. -/
def smoothObjective (E : Ext) (c : Params) (ng : ℚ) : ℚ → ℚ :=
  fun mmin =>
    let c2 := update (fun _ _ => 0) c
      { ngArg := none, hodParams := some [("M_min", mmin)], dlog10m := none }
    |E.simps (galIntegrand E c2) (dxM E c2) - ng|

/-- Sharp-cutoff branch of `_find_m_min`, operating on the already-updated
working copy `c`: reverse cumulative trapezoid of `M * dndm * n_tot`,
unattainability check against the last cumulative value (`integral[-1]`,
an `IndexError` when the array is empty), first index exceeding `ng`
(`IndexError` when none exists), window slice
`[max(ind-4, 0) : min(ind+4, len(M))]` of the reversed tail masses and of
the cumulative integral, cubic spline of `log m` against `log integral`,
evaluated at `log ng` and divided by `log 10`. -/
def find_m_min_sharp (E : Ext) (c : Params) (ng : ℚ) : Except PyErr ℚ :=
  let integrand := galIntegrand E c
  let integral := cumtrapz integrand.reverse (dxM E c)
  match integral.getLast? with
  | none => .error .indexError
  | some lastI =>
    if lastI < ng then .error (.ngException lastI)
    else
      match integral.findIdx? (fun x => decide (ng < x)) with
      | none => .error .indexError
      | some ind =>
        let mrev := (Mgrid E c).reverse.drop 1
        let lo := ind - 4
        let hi := min (ind + 4) (Mgrid E c).length
        let m := (mrev.take hi).drop lo
        let integralW := (integral.take hi).drop lo
        let sp := E.splineFit (integralW.map E.log) (m.map E.log)
        .ok (sp.eval (E.log ng) / E.log 10)

/-- Smooth branch of `_find_m_min`, operating on the already-updated
working copy `c`: Simpson integral of `M * dndm * n_tot`, unattainability
check, then Nelder-Mead minimization of the objective from the initial
guess `12.0` with `tol=1e-3` and `maxiter=200`, returning `res.x[0]`
unconditionally (the convergence flag is never inspected). -/
def find_m_min_smooth (E : Ext) (c : Params) (ng : ℚ) : Except PyErr ℚ :=
  let integral := E.simps (galIntegrand E c) (dxM E c)
  if integral < ng then .error (.ngException integral)
  else
    let res := E.minimize (smoothObjective E c ng) 12 (1 / 1000) 200
    .ok res.x

/-- Method `_find_m_min`: build the working copy, then dispatch on the
`sharp_cut` flag of the caller's own HOD (`self.hod.sharp_cut`). -/
def find_m_min (E : Ext) (p : Params) (ng : ℚ) : Except PyErr ℚ :=
  let c := copyForSolve p
  if (hod E p).sharpCut then find_m_min_sharp E c ng
  else find_m_min_smooth E c ng

/-- The maximum achievable density integral against which `_find_m_min`
tests attainability, per policy: the last reverse cumulative trapezoid
value under the sharp cutoff (absent when the grid has fewer than two
points), the Simpson integral otherwise, both on the working copy whose
minimum mass is pinned to the floor value 8. -/
def maxDensityIntegral (E : Ext) (p : Params) : Option ℚ :=
  let c := copyForSolve p
  if (hod E p).sharpCut then
    (cumtrapz (galIntegrand E c).reverse (dxM E c)).getLast?
  else some (E.simps (galIntegrand E c) (dxM E c))

/-- Modelled from the spec: the sharp-cutoff pipeline exactly as the claim
words it, in particular with a local window of four grid points on each
side of the crossing index (indices `ind - 4` through `ind + 4` inclusive,
a half-open slice ending at `ind + 5`), clipped to the grid bounds;
everything else follows the source. -/
def find_m_min_sharp_claim (E : Ext) (c : Params) (ng : ℚ) : Except PyErr ℚ :=
  let integrand := galIntegrand E c
  let integral := cumtrapz integrand.reverse (dxM E c)
  match integral.getLast? with
  | none => .error .indexError
  | some lastI =>
    if lastI < ng then .error (.ngException lastI)
    else
      match integral.findIdx? (fun x => decide (ng < x)) with
      | none => .error .indexError
      | some ind =>
        let lo := ind - 4
        let hi := min (ind + 4 + 1) (Mgrid E c).length
        let m := (((Mgrid E c).reverse.drop 1).take hi).drop lo
        let integralW := (integral.take hi).drop lo
        let sp := E.splineFit (integralW.map E.log) (m.map E.log)
        .ok (sp.eval (E.log ng) / E.log 10)

/-- Modelled from the spec, amended: identical to the claim pipeline except
that the local window runs from four grid points below the crossing index
to three above it (the half-open index slice from `ind - 4` to `ind + 4`,
clipped to the bounds) of the reversed tail masses and of the cumulative
integral. -/
def find_m_min_sharp_amended (E : Ext) (c : Params) (ng : ℚ) : Except PyErr ℚ :=
  let integrand := galIntegrand E c
  let integral := cumtrapz integrand.reverse (dxM E c)
  match integral.getLast? with
  | none => .error .indexError
  | some lastI =>
    if lastI < ng then .error (.ngException lastI)
    else
      match integral.findIdx? (fun x => decide (ng < x)) with
      | none => .error .indexError
      | some ind =>
        let lo := ind - 4
        let hi := min (ind + 4) (Mgrid E c).length
        let m := (((Mgrid E c).reverse.drop 1).drop lo).take (hi - lo)
        let integralW := (integral.drop lo).take (hi - lo)
        let sp := E.splineFit (integralW.map E.log) (m.map E.log)
        .ok (sp.eval (E.log ng) / E.log 10)

/-!  The projection integrator `projected_corr_gal` and its slope helper. -/

/-- Method `_get_slope_frac`: the closed-form fractional correction factor
computed from the clamped slope `a`. -/
def get_slope_frac (E : Ext) (a : ℚ) : ℚ :=
  let s := E.sqrt (5 - 8 * a + 4 * a ^ 2)
  let num := E.pow2 (1 + 2 * a) *
    (7 - 2 * a ^ 3 + 3 * s + a ^ 2 * (9 + s) - a * (13 + 3 * s)) *
    E.rpow ((1 + s) / (a - 1)) (-(2 * a))
  num / ((a - 1) ^ 2 * (-1 + 2 * a + s))

/-- The body of the `projected_corr_gal` loop for one projection radius
`rp`: clamp the local log-log slope at `1.3`, derive the fractional factor
and the minimum integration variable `frac * 0.005 ** 2 * rp`, build the
1000-point log grid up to `max(80, 5 * rp) - rp`, integrate the
interpolated correlation under the line-of-sight substitution by Simpson's
rule, and double. -/
def projected_at (E : Ext) (fit : SplineFn) (rp : ℚ) : ℚ :=
  let ydiff := fit.deriv (E.log rp)
  let a := max (13 / 10) (-ydiff)
  let frac := get_slope_frac E a
  let minY := frac * (1 / 200) ^ 2 * rp
  let y := logspace E (E.log10 minY) (E.log10 (max 80 (5 * rp) - rp)) 1000
  let integrand :=
    y.map (fun yy => E.exp (fit.eval (E.log (yy + rp))) * (yy + rp) /
      E.sqrt ((yy + 2 * rp) * yy))
  E.simpsXY integrand y * 2

/-- Modelled from the spec: the per-radius projection exactly as the claim
words it — the effective local slope clamped to the minimum magnitude 1.3,
the closed-form fractional factor of that slope fixing the lower limit of
the integration variable, Simpson integration of the interpolated
correlation (under the substitution kernel) on a logarithmically spaced
grid of 1000 points reaching `max(80, 5 * rp) - rp`, and the result
doubled. -/
def projected_at_spec (E : Ext) (fit : SplineFn) (rp : ℚ) : ℚ :=
  let slope := max (13 / 10) (-(fit.deriv (E.log rp)))
  let lower := get_slope_frac E slope * (1 / 200) ^ 2 * rp
  let upper := max 80 (5 * rp) - rp
  let grid := logspace E (E.log10 lower) (E.log10 upper) 1000
  2 * E.simpsXY
      (grid.map (fun yy => E.exp (fit.eval (E.log (yy + rp))) * (yy + rp) /
        E.sqrt ((yy + 2 * rp) * yy)))
      grid

/-- The value part of `projected_corr_gal`: fit a log-log cubic spline to
the strictly positive part of the correlation over the radius grid, then
evaluate the per-radius projection at every grid radius. -/
def projected_corr_gal_pure (E : Ext) (rv cg : List ℚ) : List ℚ :=
  let pos := (rv.zip cg).filter (fun q => decide (0 < q.2))
  let fit := E.splineFit ((pos.map Prod.fst).map E.log)
    ((pos.map Prod.snd).map E.log)
  rv.map (projected_at E fit)

/-!  The live-instance view: the memoizing property cache of the
`cached_property` framework, made explicit so that the frame effects of
the solver and of the projection integrator on the caller's instance can
be stated.  Reading a cached property either returns the stored value or
computes it with the pure derivation and stores it. -/

/-- Cached derived quantities of a live `HaloModel` instance that the
solver and the projection integrator touch. -/
structure HMCache where
  power : Option (List ℚ) := none
  dndm : Option (List ℚ) := none
  matterPower : Option (List ℚ) := none
  rGridC : Option (List ℚ) := none
  corrGal : Option (List ℚ) := none
deriving DecidableEq

/-- A live instance: its configuration parameters plus its cache. -/
structure HMState where
  params : Params
  cache : HMCache
deriving DecidableEq

/-- Cached read of `self.power` (supplied by the mass-function parent). -/
def getPower (E : Ext) (s : HMState) : List ℚ × HMState :=
  match s.cache.power with
  | some v => (v, s)
  | none => (E.power, { s with cache := { s.cache with power := some E.power } })

/-- Cached read of `self.dndm`. -/
def getDndm (E : Ext) (s : HMState) : List ℚ × HMState :=
  match s.cache.dndm with
  | some v => (v, s)
  | none =>
    let v := dndmArr E s.params
    (v, { s with cache := { s.cache with dndm := some v } })

/-- Cached read of `self.matter_power`. -/
def getMatterPower (E : Ext) (s : HMState) : List ℚ × HMState :=
  match s.cache.matterPower with
  | some v => (v, s)
  | none =>
    let v := matter_power E s.params
    (v, { s with cache := { s.cache with matterPower := some v } })

/-- Cached read of `self.r`. -/
def getRGrid (E : Ext) (s : HMState) : List ℚ × HMState :=
  match s.cache.rGridC with
  | some v => (v, s)
  | none =>
    let v := rGrid E s.params
    (v, { s with cache := { s.cache with rGridC := some v } })

/-- Cached read of `self.corr_gal`. -/
def getCorrGal (E : Ext) (s : HMState) : List ℚ × HMState :=
  match s.cache.corrGal with
  | some v => (v, s)
  | none =>
    let v := corr_gal E s.params
    (v, { s with cache := { s.cache with corrGal := some v } })

/-- Method `_find_m_min` as seen from the live instance: line 393 reads
`self.power` (a cached read on the live instance), line 394 takes
`c = deepcopy(self)` — in the pure embedding the value snapshot — and the
whole search then runs on the snapshot, so the live instance is returned
with at most the `power` read recorded. -/
def find_m_min_live (E : Ext) (s : HMState) (ng : ℚ) : Except PyErr ℚ × HMState :=
  let s1 := (getPower E s).2
  (find_m_min E s1.params ng, s1)

/-- Property `projected_corr_gal` as seen from the live instance: the deep
copy of the historical code path is commented out in the source, so the
reads of `self.dndm`, `self.matter_power`, `self.r` and `self.corr_gal`
are cached reads on the live instance itself, and the projection is
computed from the live values. -/
def projected_corr_gal_live (E : Ext) (s : HMState) : List ℚ × HMState :=
  let s1 := (getDndm E s).2
  let s2 := (getMatterPower E s1).2
  let t3 := getRGrid E s2
  let t4 := getCorrGal E t3.2
  (projected_corr_gal_pure E t3.1 t4.1, t4.2)

/-!  Parameter validation (the `@parameter` setters, which the caching
framework of the mass-function parent invokes at assignment time). -/

/-- A Python value as seen by a validator: a string or some non-string. -/
inductive PyVal where
  | pstr (s : String)
  | nonStr (tag : ℕ)
deriving DecidableEq

/-- The fixed set of acceptable concentration-mass relation identifiers. -/
def cm_available : List String := ["duffy", "zehavi", "bullock_rescaled"]

/-- The fixed set of acceptable halo-exclusion identifiers (after mapping
Python `None` to the string `"None"`). -/
def halo_exclusion_available : List String :=
  ["None", "sphere", "ellipsoid", "ng_matched", "schneider"]

/-- Setter of `cm_relation`: a string outside the available set raises a
`ValueError`; any value inside the set, and any non-string value, is
returned unchanged. -/
def cm_relation_set (val : PyVal) : Except String PyVal :=
  match val with
  | .pstr s =>
    if s ∈ cm_available then .ok val
    else .error ("cm_relation not acceptable: " ++ s)
  | .nonStr _ => .ok val

/-- Mapping of a possibly-`None` halo-exclusion argument to the value the
membership test sees (`None` becomes the string `"None"`). -/
def haloExclNorm (val : Option PyVal) : PyVal :=
  match val with
  | none => PyVal.pstr "None"
  | some x => x

/-- Setter of `halo_exclusion`: after normalizing `None`, any value not in
the available set — every non-member string and every non-string — raises
a `ValueError`. -/
def halo_exclusion_set (val : Option PyVal) : Except String PyVal :=
  match haloExclNorm val with
  | .pstr s =>
    if s ∈ halo_exclusion_available then .ok (.pstr s)
    else .error ("halo_exclusion not acceptable: " ++ s)
  | .nonStr _ => .error "halo_exclusion not acceptable"

/-- Membership of a Python value in a list of strings, as Python's `in`
decides it for these validators (a non-string is never a member). -/
def pyValInList (v : PyVal) (l : List String) : Bool :=
  match v with
  | .pstr s => decide (s ∈ l)
  | .nonStr _ => false

/-- Whether a validated assignment failed. -/
def isErr {α : Type} : Except String α → Bool
  | .error _ => true
  | .ok _ => false

/-!  Concrete instantiations used by the witnesses and counterexamples. -/

/-- Concrete HOD used by witnesses: a sharp-cutoff model whose mass grid
starts at exponent `17.8`, giving a 20-point fine grid under the solver's
`dlog10m = 0.01`. -/
def hodSharp : HOD :=
  { mmin := 89 / 5, nc := fun _ => 1, ns := fun _ => 1, ntot := fun _ => 1,
    sharpCut := true, central := true }

/-- Concrete external-collaborator instantiation used by witnesses:
identity transcendentals, constant kernels, a constant Simpson rule, a
never-converging minimizer that returns its initial guess, and a spline
whose evaluation returns the number of interpolation nodes. -/
def extBase : Ext :=
  { log := id, exp := id, sqrt := id, pow10 := id, log10 := id,
    pow2 := id, rpow := fun x _ => x, dndm := fun _ => 1,
    hodModel := fun _ => hodSharp,
    simps := fun _ _ => 5, simpsFirst := fun _ _ => 5,
    simpsXY := fun _ _ => 0,
    minimize := fun _ x0 _ _ => { x := x0, success := false },
    splineFit := fun xs _ => { eval := fun _ => (xs.length : ℚ), deriv := fun _ => 0 },
    powerToCorrOgata := fun _ _ _ => [3],
    profileOf := fun _ => { hasLam := false },
    biasArr := fun _ => [1],
    fortPowerGal1hSs := fun _ _ _ _ _ => [1],
    fortCorrGal1hCs := fun _ _ _ _ _ _ _ => [1, 2],
    fortCorrGal1h := fun _ _ _ _ _ _ _ _ => [1, 2],
    thalo := fun _ _ _ _ _ _ _ _ _ _ _ _ _ _ => [5],
    power := [0], nonlinearPower := [0], lnk := [0],
    meanDens := 1, deltaHalo := 200 }

/-- Variant of the concrete collaborators whose HOD has no sharp cutoff. -/
def extSmooth : Ext :=
  { extBase with hodModel := fun _ => { hodSharp with sharpCut := false } }

/-- Concrete configuration used by witnesses, matching the constructor
defaults of `HaloModel`. -/
def pBase : Params :=
  { rmin := 1 / 10, rmax := 50, rnum := 20, hodParams := [], ng := none,
    dlog10m := 1 / 10, nonlinear := true, scaleDependentBias := true,
    haloExclusion := "None", cmRelation := "duffy", nthreads := 0 }

/-- Concrete configuration with a target density set. -/
def pNg : Params := { pBase with ng := some 1 }

/-- Concrete stand-in for the solver used by the `update` witnesses. -/
def solveW : Params → ℚ → ℚ := fun _ n => n + 1

/-- Kwargs of a call `update(ng=1/2)`. -/
def kwNg : Kwargs :=
  { ngArg := some (some (1 / 2)), hodParams := none, dlog10m := none }

/-- Kwargs of a call passing an explicit `M_min` without `ng`. -/
def kwMmin : Kwargs :=
  { ngArg := none, hodParams := some [("M_min", 12)], dlog10m := none }

/-- Kwargs of a call passing both `ng` and an explicit `M_min`. -/
def kwBoth : Kwargs :=
  { ngArg := some (some (1 / 100)), hodParams := some [("M_min", 12)],
    dlog10m := none }

/-- A live instance with an empty cache, as right after construction. -/
def sLive : HMState := { params := pBase, cache := {} }

/-- Getter of `List.zipWith` with a default, used to state pointwise facts
about elementwise array sums. -/
theorem zipWith_getD (f : ℚ → ℚ → ℚ) (as : List ℚ) :
    ∀ (bs : List ℚ) (i : ℕ), i < as.length → i < bs.length → ∀ d : ℚ,
      (List.zipWith f as bs).getD i d = f (as.getD i d) (bs.getD i d) := by
  induction as with
  | nil => intro bs i h1 _ _; simp at h1
  | cons a as ih =>
    intro bs i h1 h2 d
    cases bs with
    | nil => simp at h2
    | cons b bs =>
      cases i with
      | zero => rfl
      | succ i =>
        simp only [List.zipWith_cons_cons, List.getD_cons_succ]
        exact ih bs i (by simpa using h1) (by simpa using h2) d

/-- C1: for every configuration and every index of the radius grid at which
both terms are defined, the total galaxy correlation equals the pointwise
sum of the one-halo and two-halo terms, by construction. -/
theorem corr_gal_eq_one_plus_two (E : Ext) (p : Params) (i : ℕ)
    (h1 : i < (corr_gal_1h E p).length) (h2 : i < (corr_gal_2h E p).length) :
    (corr_gal E p).getD i 0 =
      (corr_gal_1h E p).getD i 0 + (corr_gal_2h E p).getD i 0 :=
  zipWith_getD (· + ·) (corr_gal_1h E p) (corr_gal_2h E p) i h1 h2 0

/-- C9: whenever the mean galaxy density is positive, the central and
satellite fractions sum exactly to one. -/
theorem central_plus_satellite_eq_one (E : Ext) (p : Params)
    (h : 0 < mean_gal_den E p) :
    central_fraction E p + satellite_fraction E p = 1 := by
  unfold central_fraction
  ring

/-- C10: the mean galaxy density returns the target `ng` exactly when it is
set, bypassing the occupation integral; only when `ng` is absent does it
equal the Simpson-rule integral of `M * dndm * n_tot` with the log-grid
step. -/
theorem mean_gal_den_spec (E : Ext) (p : Params) :
    (∀ v : ℚ, p.ng = some v → mean_gal_den E p = v) ∧
      (p.ng = none →
        mean_gal_den E p = E.simpsFirst (galIntegrand E p) (dxM E p)) := by
  constructor
  · intro v hv
    unfold mean_gal_den
    rw [hv]
  · intro hv
    unfold mean_gal_den
    rw [hv]

unseal Rat.add Rat.mul Rat.inv Rat.sub in
/-- Witness for C1: with concrete collaborators, both terms have positive
length and the pointwise sum holds at index zero. -/
theorem corr_gal_eq_one_plus_two_witness :
    (corr_gal extBase pBase).getD 0 0 =
      (corr_gal_1h extBase pBase).getD 0 0 + (corr_gal_2h extBase pBase).getD 0 0 :=
  corr_gal_eq_one_plus_two extBase pBase 0 (by decide) (by decide)

unseal Rat.add Rat.mul Rat.inv Rat.sub in
/-- Witness for C9: a configuration with positive mean galaxy density whose
fractions sum to one. -/
theorem central_plus_satellite_eq_one_witness :
    0 < mean_gal_den extBase pNg ∧
      central_fraction extBase pNg + satellite_fraction extBase pNg = 1 :=
  ⟨by decide, central_plus_satellite_eq_one extBase pNg (by decide)⟩

/-- Witness for C10: with `ng` set the density is `ng` itself; with `ng`
absent it is the Simpson integral. -/
theorem mean_gal_den_spec_witness :
    mean_gal_den extBase pNg = 1 ∧
      mean_gal_den extBase pBase =
        extBase.simpsFirst (galIntegrand extBase pBase) (dxM extBase pBase) :=
  ⟨(mean_gal_den_spec extBase pNg).1 1 rfl, (mean_gal_den_spec extBase pBase).2 rfl⟩

/-- Helper: in the sharp branch the density-unattainable error, with the
last cumulative value as payload, is raised exactly when that value is
below the target. -/
theorem sharp_ngException_iff (E : Ext) (c : Params) (ng L : ℚ)
    (h : (cumtrapz (galIntegrand E c).reverse (dxM E c)).getLast? = some L) :
    ((find_m_min_sharp E c ng = Except.error (PyErr.ngException L)) ↔ L < ng) ∧
      ∀ X : ℚ, find_m_min_sharp E c ng = Except.error (PyErr.ngException X) → X = L := by
  simp only [find_m_min_sharp, h]
  by_cases hlt : L < ng
  · simp [hlt]
  · simp only [if_neg hlt]
    cases hidx : (cumtrapz (galIntegrand E c).reverse (dxM E c)).findIdx?
        (fun x => decide (ng < x)) with
    | none => simp [hlt]
    | some ind => simp [hlt]

/-- Helper: in the smooth branch the density-unattainable error, with the
Simpson integral as payload, is raised exactly when that integral is below
the target. -/
theorem smooth_ngException_iff (E : Ext) (c : Params) (ng : ℚ) :
    ((find_m_min_smooth E c ng =
        Except.error (PyErr.ngException (E.simps (galIntegrand E c) (dxM E c)))) ↔
      E.simps (galIntegrand E c) (dxM E c) < ng) ∧
      ∀ X : ℚ, find_m_min_smooth E c ng = Except.error (PyErr.ngException X) →
        X = E.simps (galIntegrand E c) (dxM E c) := by
  by_cases hlt : E.simps (galIntegrand E c) (dxM E c) < ng <;>
    simp [find_m_min_smooth, hlt]

/-- C3: under both policies the solver raises the density-unattainable
error exactly when the maximum achievable density integral (with the
minimum mass pinned to the floor value) is below the target `ng`, and the
raised error carries that maximum integral as its diagnostic payload. -/
theorem find_m_min_unattainable_iff (E : Ext) (p : Params) (ng L : ℚ)
    (h : maxDensityIntegral E p = some L) :
    ((find_m_min E p ng = Except.error (PyErr.ngException L)) ↔ L < ng) ∧
      ∀ X : ℚ, find_m_min E p ng = Except.error (PyErr.ngException X) → X = L := by
  by_cases hs : (hod E p).sharpCut = true
  · simp only [maxDensityIntegral, hs, if_true] at h
    simp only [find_m_min, hs, if_true]
    exact sharp_ngException_iff E (copyForSolve p) ng L h
  · rw [Bool.not_eq_true] at hs
    simp only [maxDensityIntegral, hs, Bool.false_eq_true, if_false,
      Option.some.injEq] at h
    simp only [find_m_min, hs, Bool.false_eq_true, if_false]
    rw [← h]
    exact smooth_ngException_iff E (copyForSolve p) ng

unseal Rat.add Rat.mul Rat.inv Rat.sub in
/-- Witness for C3: a concrete sharp-cutoff model whose maximum achievable
integral is 68001/20000, so a target of 5 raises the error carrying it. -/
theorem find_m_min_unattainable_iff_witness :
    find_m_min extBase pBase 5 = Except.error (PyErr.ngException (68001 / 20000)) :=
  (find_m_min_unattainable_iff extBase pBase 5 (68001 / 20000) (by decide)).1.mpr
    (by decide)

unseal Rat.add Rat.mul Rat.inv Rat.sub in
/-- C4 counterexample: at a concrete sharp-cutoff configuration the solver
result differs from the claim-worded pipeline whose local window extends
four grid points on each side of the crossing index, because the source
slice `[max(ind-4, 0) : min(ind+4, len)]` keeps only three points above
the index. -/
theorem find_m_min_window_counterexample :
    find_m_min extBase pBase 1 ≠
      find_m_min_sharp_claim extBase (copyForSolve pBase) 1 := by decide

/-- Helper: the source sharp branch coincides with the amended pipeline
(window four below, three above the crossing index). -/
theorem sharp_eq_amended (E : Ext) (c : Params) (ng : ℚ) :
    find_m_min_sharp E c ng = find_m_min_sharp_amended E c ng := by
  simp only [find_m_min_sharp, find_m_min_sharp_amended]
  cases (cumtrapz (galIntegrand E c).reverse (dxM E c)).getLast? with
  | none => rfl
  | some lastI =>
    by_cases h : lastI < ng
    · simp [h]
    · simp only [if_neg h]
      cases (cumtrapz (galIntegrand E c).reverse (dxM E c)).findIdx?
          (fun x => decide (ng < x)) with
      | none => rfl
      | some ind => simp only [List.drop_take]

/-- C4 amended: for every configuration with a sharp-cutoff occupation
model, the solver equals the claimed pipeline with the window corrected to
run from four grid points below the crossing index to three above it. -/
theorem find_m_min_sharp_follows_amended_spec (E : Ext) (p : Params) (ng : ℚ)
    (hs : (hod E p).sharpCut = true) :
    find_m_min E p ng = find_m_min_sharp_amended E (copyForSolve p) ng := by
  simp only [find_m_min, hs, if_true]
  exact sharp_eq_amended E (copyForSolve p) ng

/-- Witness for C4: the amended pipeline agrees with the solver at the
concrete sharp-cutoff configuration of the counterexample. -/
theorem find_m_min_sharp_follows_amended_spec_witness :
    find_m_min extBase pBase 1 =
      find_m_min_sharp_amended extBase (copyForSolve pBase) 1 :=
  find_m_min_sharp_follows_amended_spec extBase pBase 1 rfl

/-- C5: without a sharp cutoff and with the target attainable, the solver
runs the Nelder-Mead minimization of the density-mismatch objective from
initial guess 12 with tolerance 1e-3 and iteration cap 200, and returns
the minimizer argument as a success — for every minimizer behavior,
including one that exhausts its budget without converging. -/
theorem find_m_min_smooth_policy (E : Ext) (p : Params) (ng : ℚ)
    (h1 : (hod E p).sharpCut = false)
    (h2 : ¬ E.simps (galIntegrand E (copyForSolve p)) (dxM E (copyForSolve p)) < ng) :
    find_m_min E p ng =
      Except.ok
        ((E.minimize (smoothObjective E (copyForSolve p) ng) 12 (1 / 1000) 200).x) := by
  simp only [find_m_min, h1, Bool.false_eq_true, if_false, find_m_min_smooth,
    if_neg h2]

unseal Rat.add Rat.mul Rat.inv Rat.sub in
/-- Witness for C5: a concrete non-converging minimizer (success flag
false) whose initial guess 12 is still returned as a usable result. -/
theorem find_m_min_smooth_policy_witness :
    find_m_min extSmooth pBase 1 = Except.ok 12 :=
  find_m_min_smooth_policy extSmooth pBase 1 rfl (by decide)

unseal Rat.add Rat.mul Rat.inv Rat.sub in
/-- C2 counterexample: a single `update` call passing both `ng` and an
explicit `M_min` inside `hod_params` leaves `ng` set (the `elif` skips the
clearing branch), refuting that passing an explicit `M_min` always clears
`ng`. -/
theorem update_counterexample :
    (update solveW pBase kwBoth).ng ≠ none := by decide

/-- C2 amended: passing a non-None `ng` stores it and replaces
`hod_params` by the freshly solved minimum mass (overriding any explicit
`M_min` passed in the same call); passing an explicit `M_min` inside
`hod_params` in a call that does not pass `ng` sets `ng` to None and
stores the passed dictionary. -/
theorem update_authority (solve : Params → ℚ → ℚ) (p : Params) (kw : Kwargs) :
    (∀ q : ℚ, kw.ngArg = some (some q) →
        (update solve p kw).ng = some q ∧
          (update solve p kw).hodParams =
            [("M_min", solve (apply_kwargs p kw) q)]) ∧
      (kw.ngArg = none → ∀ hp : List (String × ℚ), kw.hodParams = some hp →
        (hp.lookup "M_min").isSome = true →
        (update solve p kw).ng = none ∧ (update solve p kw).hodParams = hp) := by
  constructor
  · intro q hq
    cases hhp : kw.hodParams <;> cases hdl : kw.dlog10m <;>
      simp [update, apply_kwargs, hq, hhp, hdl]
  · intro hng hp hhp hl
    cases hdl : kw.dlog10m <;>
      simp [update, apply_kwargs, hng, hhp, hl, hdl]

/-- Witness for C2: concrete calls showing the `ng` path re-solving
`M_min` and the explicit-`M_min` path clearing `ng`. -/
theorem update_authority_witness :
    ((update solveW pBase kwNg).ng = some (1 / 2) ∧
        (update solveW pBase kwNg).hodParams =
          [("M_min", solveW (apply_kwargs pBase kwNg) (1 / 2))]) ∧
      (update solveW pBase kwMmin).ng = none ∧
        (update solveW pBase kwMmin).hodParams = [("M_min", 12)] :=
  ⟨(update_authority solveW pBase kwNg).1 (1 / 2) rfl,
    (update_authority solveW pBase kwMmin).2 rfl [("M_min", 12)] rfl (by decide)⟩

unseal Rat.add Rat.mul Rat.inv Rat.sub in
/-- C6 counterexample: on a freshly constructed live instance the
projection integrator populates the live cache (here the `dndm` read),
so the caller's cached derived quantities are not left unchanged — the
deep copy of the historical code path is commented out in the source. -/
theorem projected_corr_gal_mutates_live_cache :
    (projected_corr_gal_live extBase sLive).2.cache.dndm ≠ sLive.cache.dndm := by
  decide

/-- C6 amended: the minimum-mass solver takes a value snapshot (deep copy)
of the configuration after first reading `self.power` on the live
instance, and its result is exactly the pure computation on that snapshot,
so the caller's parameters are unchanged and its cache gains at most the
`power` entry; the projection integrator operates directly on the live
instance — reading and caching derived quantities there — but leaves the
caller's configuration parameters unchanged. -/
theorem solver_and_projection_frame (E : Ext) (s : HMState) (ng : ℚ) :
    (find_m_min_live E s ng).2.params = s.params ∧
      (find_m_min_live E s ng).2.cache =
        { s.cache with power := some ((getPower E s).1) } ∧
      (find_m_min_live E s ng).1 = find_m_min E s.params ng ∧
      (projected_corr_gal_live E s).2.params = s.params := by
  obtain ⟨p, c⟩ := s
  obtain ⟨pw, dn, mp, rg, cg⟩ := c
  refine ⟨?_, ?_, ?_, ?_⟩
  · cases pw <;> rfl
  · cases pw <;> rfl
  · cases pw <;> rfl
  · cases dn <;> cases mp <;> cases rg <;> cases cg <;> rfl

/-- C7: the per-radius projection is exactly the claimed composition —
slope clamped at magnitude 1.3, closed-form fractional factor fixing the
minimum integration variable, Simpson integration of the interpolated
correlation on a 1000-point log grid up to `max(80, 5 rp) - rp`, result
doubled. -/
theorem projected_at_follows_spec (E : Ext) (fit : SplineFn) (rp : ℚ) :
    projected_at E fit rp = projected_at_spec E fit rp := by
  simp only [projected_at, projected_at_spec]
  exact mul_comm _ _

/-- C8: every halo-exclusion value outside the fixed enumerated set and
every unrecognized concentration-mass relation string identifier is
rejected by the validating setter itself, so the assignment fails
immediately rather than storing an invalid value. -/
theorem invalid_identifier_set_fails :
    (∀ v : Option PyVal,
        pyValInList (haloExclNorm v) halo_exclusion_available = false →
        isErr (halo_exclusion_set v) = true) ∧
      ∀ s : String, s ∉ cm_available → isErr (cm_relation_set (.pstr s)) = true := by
  constructor
  · intro v hv
    unfold halo_exclusion_set
    cases hnorm : haloExclNorm v with
    | pstr s =>
      rw [hnorm] at hv
      unfold pyValInList at hv
      simp only [decide_eq_false_iff_not] at hv
      simp [hv, isErr]
    | nonStr t => simp [isErr]
  · intro s hs
    simp [cm_relation_set, hs, isErr]

/-- Witness for C8: a concrete bad exclusion identifier and a concrete bad
concentration-mass identifier both fail at set time. -/
theorem invalid_identifier_set_fails_witness :
    isErr (halo_exclusion_set (some (.pstr "foo"))) = true ∧
      isErr (cm_relation_set (.pstr "bad")) = true :=
  ⟨invalid_identifier_set_fails.1 (some (.pstr "foo")) (by decide),
    invalid_identifier_set_fails.2 "bad" (by decide)⟩

end Halomod
